import Mathlib

set_option maxRecDepth 100000

/-!
Verification of the stateful tool-call dispatch and specialized-agent
orchestration engine of the convo-ai middleware.

The definitions below are a shallow embedding of the relevant TypeScript
source files:
  * `src/libs/tools.ts`            (formatPhoneNumber, handler registry names)
  * `src/libs/versionedFunctionMap.ts`
        (storeYelpResults, findPhoneNumber, storeCallAction, getCallAction,
         stopAgentPolling, startAgentPolling, the three dispatch wrappers
         placePhoneOrderAgent / makeReservationAgent / callAndAskQuestionAgent,
         and createSpecializedVoiceAgent)
  * `src/services/cerebrasService.ts`
        (the per-turn tool-call loop of processNonStreamingRequest)

JavaScript `Map<string, T>` objects are modelled as association lists
`List (String × T)` that preserve insertion order: `set` of an existing key
overwrites in place, `set` of a new key appends, `delete` removes.
Timestamps (`Date.now()`) are `Int` values threaded explicitly.
External services (the Agora provisioning API, the telephony bridge, the
Yelp client, the LLM completion client) are modelled as explicit
environment records, matching the spec treating them as collaborators.
-/

/-- Empty-string-is-falsy coercion of an optional JS string argument
(`if (!agentId)` treats both `undefined` and `""` as absent). -/
def jsStr (o : Option String) : Option String :=
  match o with
  | some s => if s = "" then none else some s
  | none => none

/-- JS `x || dflt` for an optional string (empty string falls back too). -/
def jsOrDefault (o : Option String) (dflt : String) : String :=
  match jsStr o with
  | some s => s
  | none => dflt

/-- `Array.prototype.join(sep)`. -/
def joinSep (sep : String) : List String → String
  | [] => ""
  | [x] => x
  | x :: xs => x ++ sep ++ joinSep sep xs

/-- `String.prototype.toLowerCase()` (ASCII, which is all the source uses). -/
def lowerStr (s : String) : String :=
  ⟨s.data.map Char.toLower⟩

/-- Contiguous-sublist test used to model `String.prototype.includes`. -/
def listContains (needle : List Char) : List Char → Bool
  | [] => needle.isEmpty
  | c :: t => needle.isPrefixOf (c :: t) || listContains needle t

/-- JS `hay.includes(needle)`. -/
def strContains (hay needle : String) : Bool :=
  listContains needle.data hay.data

/-- `Array.prototype.slice(-n)`: the last `n` elements. -/
def lastN {α : Type} (n : Nat) (l : List α) : List α :=
  l.drop (l.length - n)

/-- `Map.get` on an insertion-ordered association list. -/
def alGet {α : Type} (k : String) : List (String × α) → Option α
  | [] => none
  | (k₂, v) :: t => if k₂ = k then some v else alGet k t

/-- `Map.set`: overwrite in place if the key exists, append otherwise. -/
def alSet {α : Type} (k : String) (v : α) : List (String × α) → List (String × α)
  | [] => [(k, v)]
  | (k₂, v₂) :: t => if k₂ = k then (k₂, v) :: t else (k₂, v₂) :: alSet k v t

/-- `Map.delete`. -/
def alDel {α : Type} (k : String) (l : List (String × α)) : List (String × α) :=
  l.filter (fun p => p.1 ≠ k)

/-!
## `src/libs/tools.ts`: formatPhoneNumber
-/

/-- `formatPhoneNumber` from `src/libs/tools.ts`: strip non-digits, prepend a
`1` country code when the digit string does not already start with `1`,
then prepend `+`. -/
def formatPhoneNumber (phone : String) : String :=
  let digitsOnly := phone.data.filter Char.isDigit
  let withCountryCode := if digitsOnly.head? = some '1' then digitsOnly else '1' :: digitsOnly
  ⟨'+' :: withCountryCode⟩

/-!
## `src/libs/versionedFunctionMap.ts`: PhoneDirectory
(`restaurantIndex`, `storeYelpResults`, `findPhoneNumber`)
-/

/-- One value of the per-user `restaurantIndex` map (keyed by business id). -/
structure DirEntry where
  name : String
  phone : String
  id : String
  lastSeen : Int
deriving DecidableEq, Repr

/-- The two-level `restaurantIndex : Map<userId, Map<businessId, entry>>`. -/
abbrev RestaurantIndex := List (String × List (String × DirEntry))

/-- One element of the `results` array passed to `storeYelpResults`. -/
structure YelpResult where
  name : String
  phone : String
  id : String
deriving DecidableEq, Repr

/-- Body of the `results.forEach` in `storeYelpResults`: insert when the id is
unseen and the phone is non-empty, otherwise refresh `lastSeen` only. -/
def storeOneResult (now : Int) (userIndex : List (String × DirEntry))
    (r : YelpResult) : List (String × DirEntry) :=
  if r.phone ≠ "" ∧ (alGet r.id userIndex).isNone then
    userIndex ++ [(r.id, ⟨r.name, r.phone, r.id, now⟩)]
  else if r.phone ≠ "" ∧ (alGet r.id userIndex).isSome then
    match alGet r.id userIndex with
    | some e => alSet r.id { e with lastSeen := now } userIndex
    | none => userIndex
  else
    userIndex

/-- `storeYelpResults(userId, results)` from `versionedFunctionMap.ts`
(with `Date.now()` passed explicitly as `now`). -/
def storeYelpResults (now : Int) (userId : String) (results : List YelpResult)
    (idx : RestaurantIndex) : RestaurantIndex :=
  let userIndex := (alGet userId idx).getD []
  alSet userId (results.foldl (storeOneResult now) userIndex) idx

/-- `c` is one of `a`–`z` or `0`–`9`. -/
def isLowerAlnum (c : Char) : Bool :=
  (97 ≤ c.toNat && c.toNat ≤ 122) || (48 ≤ c.toNat && c.toNat ≤ 57)

/-- `s.toLowerCase().replace(/[^a-z0-9]/g, '')`. -/
def normalizeName (s : String) : String :=
  ⟨(s.data.map Char.toLower).filter isLowerAlnum⟩

/-- The either-direction containment test of `findPhoneNumber`. -/
def nameMatches (queryName storedName : String) : Bool :=
  let q := normalizeName queryName
  let n := normalizeName storedName
  strContains n q || strContains q n

/-- `findPhoneNumber(userId, restaurantName)` from `versionedFunctionMap.ts`:
normalize the query and every stored name and return the phone of the first
entry matching in either containment direction. -/
def findPhoneNumber (userId restaurantName : String) (idx : RestaurantIndex) :
    Option String :=
  match alGet userId idx with
  | none => none
  | some userIndex =>
    if userIndex.isEmpty then none
    else
      (userIndex.find? (fun p => nameMatches restaurantName p.2.name)).map
        (fun p => p.2.phone)

/-!
## `src/libs/versionedFunctionMap.ts`: CallActionPolicy
(`callActionStore`, `storeCallAction`, `getCallAction`)
-/

/-- One value of `callActionStore` (keyed by channel). -/
structure CallActionEntry where
  callAction : String
  timestamp : Int
deriving DecidableEq, Repr

/-- `storeCallAction(channel, callAction)`: no-op for an empty channel. -/
def storeCallAction (channel callAction : String) (now : Int)
    (store : List (String × CallActionEntry)) : List (String × CallActionEntry) :=
  if channel = "" then store
  else alSet channel ⟨callAction, now⟩ store

/-- `getCallAction(channel)`: returns the stored preference unless the channel
is empty, nothing is stored, or the entry is older than one hour — the stale
entry is deleted and the fixed default is returned.  The (possibly updated)
store is returned alongside the action. -/
def getCallAction (channel : String) (now : Int)
    (store : List (String × CallActionEntry)) :
    String × List (String × CallActionEntry) :=
  if channel = "" then ("call_hermes", store)
  else
    match alGet channel store with
    | some stored =>
      if stored.timestamp < now - (60 * 60 * 1000) then
        ("call_hermes", alDel channel store)
      else
        (stored.callAction, store)
    | none => ("call_hermes", store)

/-!
## `src/libs/versionedFunctionMap.ts`: orchestration state
-/

/-- ASCII apostrophe, kept out of string literals for hygiene. -/
def apos : String := (Char.ofNat 39).toString

/-- One value of `agentStore` (keyed by user id), written by `storeAgentInfo`. -/
structure AgentInfo where
  agentId : String
  type : String
  channel : String
  timestamp : Int
deriving DecidableEq, Repr

/-- One value of `activePollingSessions` (keyed by `channel-agentId`). -/
structure PollingSession where
  agentId : String
  userId : String
  channel : String
  type : String
  pollCount : Nat
  lastStatus : String
  consecutiveUnchangedCount : Nat
  intervalId : Option Nat
deriving DecidableEq, Repr

/-- One value of `pollingCallbacks` (keyed by channel). -/
structure PollingCallback where
  appId : String
  userId : String
  channel : String
  agentId : String
  type : String
deriving DecidableEq, Repr

/-- The `type` field of a pushed conversation-context update. -/
inductive UpdateKind where
  | UPDATE
  | COMPLETED
  | FAILED
deriving DecidableEq, Repr

/-- One element of a `conversationContext` entry update list. -/
structure ContextUpdate where
  timestamp : Int
  status : String
  type : UpdateKind
deriving DecidableEq, Repr

/-- One value of `conversationContext` (keyed by channel). -/
structure ContextEntry where
  agentId : String
  type : String
  latestStatus : String
  updates : List ContextUpdate
deriving DecidableEq, Repr

/-- The process-wide module-level `Map`s of `versionedFunctionMap.ts`. -/
structure SysState where
  agentStore : List (String × AgentInfo)
  restaurantIndex : RestaurantIndex
  callActionStore : List (String × CallActionEntry)
  activeSpecializedAgents : List (String × Bool)
  activePollingSessions : List (String × PollingSession)
  pollingCallbacks : List (String × PollingCallback)
  conversationContext : List (String × ContextEntry)
deriving DecidableEq, Repr

/-- The state with every store empty (module load time). -/
def SysState.empty : SysState :=
  ⟨[], [], [], [], [], [], []⟩

/-- `activeSpecializedAgents.get(channel)` is truthy: the per-channel
dispatch guard is held. -/
def guardHeld (st : SysState) (channel : String) : Bool :=
  (alGet channel st.activeSpecializedAgents).getD false

/-!
## `stopAgentPolling` and `startAgentPolling`
-/

/-- Arguments of the `stop_agent_polling` tool. -/
structure StopArgs where
  agent_id : Option String
  reason : Option String
deriving DecidableEq, Repr

/-- `stopAgentPolling(appId, userId, channel, args)` from
`versionedFunctionMap.ts`: locate the polling session (explicit truthy
`agent_id`, else the first session whose channel matches), then delete the
session, the channel polling callback and the channel dispatch-guard flag.
`clearInterval` has no modelled effect (timers are never armed). -/
def stopAgentPolling (appId userId channel : String) (args : StopArgs)
    (st : SysState) : String × SysState :=
  let found : Option (String × String) :=
    match jsStr args.agent_id with
    | none =>
      (st.activePollingSessions.find? (fun p => p.2.channel = channel)).map
        (fun p => (p.1, p.2.agentId))
    | some aid => some (channel ++ "-" ++ aid, aid)
  match found with
  | none => ("No active agent found to stop.", st)
  | some (sessionKey, agentId) =>
    match alGet sessionKey st.activePollingSessions with
    | none => ("No active polling session found for agent " ++ agentId ++ ".", st)
    | some _ =>
      let reason := jsOrDefault args.reason "manually stopped"
      ("✅ Stopped monitoring agent " ++ agentId ++ ". Reason: " ++ reason,
        { st with
          activePollingSessions := alDel sessionKey st.activePollingSessions
          pollingCallbacks := alDel channel st.pollingCallbacks
          activeSpecializedAgents := alDel channel st.activeSpecializedAgents })

/-- `startAgentPolling(appId, userId, channel, agentId, type)`: registers the
polling session (auto-polling disabled, no timer armed) and the per-channel
callback record. -/
def startAgentPolling (appId userId channel agentId type : String)
    (st : SysState) : SysState :=
  { st with
    activePollingSessions :=
      alSet (channel ++ "-" ++ agentId)
        ⟨agentId, userId, channel, type, 0, "STARTING", 0, none⟩
        st.activePollingSessions
    pollingCallbacks :=
      alSet channel ⟨appId, userId, channel, agentId, type⟩ st.pollingCallbacks }

/-- `storeAgentInfo(userId, agentId, type, channel)`. -/
def storeAgentInfo (userId agentId type channel : String) (now : Int)
    (st : SysState) : SysState :=
  { st with agentStore := alSet userId ⟨agentId, type, channel, now⟩ st.agentStore }

/-!
## The three specialized-agent dispatch wrappers
-/

/-- All characters are ASCII digits. -/
def allDigits (l : List Char) : Bool := l.all Char.isDigit

/-- A run of exactly 10 or 11 ASCII digits. -/
def digits1011 (l : List Char) : Bool :=
  allDigits l && (l.length == 10 || l.length == 11)

/-- The basic phone pattern `/^\+?1?[0-9]{10,11}$/` used by the dispatch
wrappers: optional `+`, optional `1`, then 10 or 11 digits. -/
def phonePat (s : String) : Bool :=
  let t :=
    match s.data with
    | '+' :: r => r
    | cs => cs
  digits1011 t ||
    (match t with
     | '1' :: r => digits1011 r
     | _ => false)

/-- The shared "already active" rejection string of all three wrappers. -/
def alreadyActiveMsg : String :=
  "Error: A specialized agent is already active for this conversation. " ++
  "Please wait for the current call to complete before starting a new one."

/-- The shared missing-required-fields rejection string. -/
def missingFieldsMsg (missing : List String) : String :=
  "Error: Missing required field(s): " ++ joinSep ", " missing ++
  ". Please confirm all details with the user before proceeding."

/-- The shared invalid-customer-name rejection string. -/
def invalidNameMsg (name : String) : String :=
  "Error: Invalid customer name \"" ++ name ++
  "\". Please ask the user for their real full name before proceeding. " ++
  "Names like \"Customer\", \"User\", \"Indian Scissor\" are not acceptable."

/-- The customer-name data-integrity check of the order and reservation
wrappers (true when the name must be rejected). -/
def badCustomerName (name : String) : Bool :=
  strContains (lowerStr name) "customer" ||
  strContains (lowerStr name) "user" ||
  name.length < 2

/-- The detached background continuation spawned by a dispatch wrapper:
the arguments of the fire-and-forget `createSpecializedVoiceAgent` call.
The generated system-prompt and greeting templates are opaque to every
claim and are not carried. -/
structure BackgroundTask where
  appId : String
  userId : String
  channel : String
  specialization : String
  phoneNumber : String
deriving DecidableEq, Repr

/-- Result of the synchronous part of a dispatch wrapper: the reply string
returned to the tool-call loop, the updated stores, and the background
continuation when one was spawned. -/
structure WrapperOut where
  reply : String
  state : SysState
  task : Option BackgroundTask
deriving DecidableEq, Repr

/-- Arguments of `call_and_ask_question_agent`. -/
structure InquiryArgs where
  phone_number : String
  restaurant_name : String
  question : String
deriving DecidableEq, Repr

/-- Arguments of `place_phone_order_agent`. -/
structure OrderArgs where
  phone_number : String
  restaurant_name : String
  customer_name : String
  food_items : String
  delivery_type : String
  delivery_address : String
deriving DecidableEq, Repr

/-- Arguments of `make_reservation_agent` (`party_size` is a JS number;
`0` is falsy and counts as missing). -/
structure ReservationArgs where
  phone_number : String
  restaurant_name : String
  customer_name : String
  party_size : Int
  time_preferences : String
deriving DecidableEq, Repr

/-- The missing-field list built by `callAndAskQuestionAgent`. -/
def inquiryMissing (args : InquiryArgs) : List String :=
  (if args.phone_number = "" then ["phone_number"] else []) ++
  (if args.restaurant_name = "" then ["restaurant_name"] else []) ++
  (if args.question = "" then ["question"] else [])

/-- `callAndAskQuestionAgent` from `versionedFunctionMap.ts`: validate the
arguments, reject when the channel guard is held, otherwise set the guard,
spawn `createSpecializedVoiceAgent` in the background and return at once. -/
def callAndAskQuestionAgent (appId userId channel : String) (args : InquiryArgs)
    (st : SysState) : WrapperOut :=
  let missing := inquiryMissing args
  if missing ≠ [] then ⟨missingFieldsMsg missing, st, none⟩
  else if guardHeld st channel then ⟨alreadyActiveMsg, st, none⟩
  else
    let st2 :=
      { st with activeSpecializedAgents := alSet channel true st.activeSpecializedAgents }
    ⟨"✅ inquiry agent dispatched and calling " ++ args.restaurant_name ++
      " (" ++ args.phone_number ++ ")!\n\n" ++
      "The agent is now contacting the restaurant to ask: \"" ++ args.question ++
      "\". Use get_latest_agent_status to check progress.",
     st2,
     some ⟨appId, userId, channel, "restaurant-inquiry", args.phone_number⟩⟩

/-- The missing-field list built by `placePhoneOrderAgent`. -/
def orderMissing (args : OrderArgs) : List String :=
  (if args.phone_number = "" then ["phone_number"] else []) ++
  (if args.restaurant_name = "" then ["restaurant_name"] else []) ++
  (if args.customer_name = "" then ["customer_name"] else []) ++
  (if args.food_items = "" then ["food_items"] else []) ++
  (if args.delivery_type = "" then ["delivery_type"] else []) ++
  (if args.delivery_address = "" then ["delivery_address"] else [])

/-- The phone-number step of `placePhoneOrderAgent`: keep a well-formed
number, otherwise (the `auto` sentinel or a failed pattern test) resolve it
through the PhoneDirectory. -/
def resolveOrderPhone (userId : String) (args : OrderArgs) (st : SysState) :
    Option String :=
  if args.phone_number = "auto" || !phonePat args.phone_number then
    findPhoneNumber userId args.restaurant_name st.restaurantIndex
  else some args.phone_number

/-- The failed-resolution rejection string of `placePhoneOrderAgent`. -/
def couldNotFindPhoneMsg (restaurantName : String) : String :=
  "Error: Could not find phone number for \"" ++ restaurantName ++
  "\" in recent searches. Please search for the restaurant first to get the " ++
  "correct phone number."

/-- `placePhoneOrderAgent` from `versionedFunctionMap.ts`: field validation,
customer-name integrity check, phone resolution, guard check, then set the
guard, spawn the background continuation and return at once. -/
def placePhoneOrderAgent (appId userId channel : String) (args : OrderArgs)
    (st : SysState) : WrapperOut :=
  let missing := orderMissing args
  if missing ≠ [] then ⟨missingFieldsMsg missing, st, none⟩
  else if badCustomerName args.customer_name then
    ⟨invalidNameMsg args.customer_name, st, none⟩
  else
    match resolveOrderPhone userId args st with
    | none => ⟨couldNotFindPhoneMsg args.restaurant_name, st, none⟩
    | some phoneNumber =>
      if guardHeld st channel then ⟨alreadyActiveMsg, st, none⟩
      else
        let orderType :=
          if lowerStr args.delivery_type = "delivery" then "delivery" else "takeout"
        let st2 :=
          { st with activeSpecializedAgents := alSet channel true st.activeSpecializedAgents }
        ⟨"✅ phone-ordering agent dispatched and calling " ++
          args.restaurant_name ++ " (" ++ phoneNumber ++ ")!\n\n" ++
          "The agent is now contacting the restaurant to place your " ++
          orderType ++ " order. Use get_latest_agent_status to check progress.",
         st2,
         some ⟨appId, userId, channel, "phone-ordering", phoneNumber⟩⟩

/-- The missing-field list built by `makeReservationAgent`. -/
def reservationMissing (args : ReservationArgs) : List String :=
  (if args.phone_number = "" then ["phone_number"] else []) ++
  (if args.restaurant_name = "" then ["restaurant_name"] else []) ++
  (if args.customer_name = "" then ["customer_name"] else []) ++
  (if args.party_size = 0 then ["party_size"] else []) ++
  (if args.time_preferences = "" then ["time_preferences"] else [])

/-- The invalid-phone-format rejection string of `makeReservationAgent`. -/
def invalidPhoneMsg (phone : String) : String :=
  "Error: Invalid phone number format \"" ++ phone ++
  "\". Please use the exact phone number from YELP search results. " ++
  "Never make up phone numbers."

/-- `makeReservationAgent` from `versionedFunctionMap.ts`. -/
def makeReservationAgent (appId userId channel : String) (args : ReservationArgs)
    (st : SysState) : WrapperOut :=
  let missing := reservationMissing args
  if missing ≠ [] then ⟨missingFieldsMsg missing, st, none⟩
  else if badCustomerName args.customer_name then
    ⟨invalidNameMsg args.customer_name, st, none⟩
  else if !phonePat args.phone_number then
    ⟨invalidPhoneMsg args.phone_number, st, none⟩
  else if guardHeld st channel then ⟨alreadyActiveMsg, st, none⟩
  else
    let st2 :=
      { st with activeSpecializedAgents := alSet channel true st.activeSpecializedAgents }
    ⟨"✅ reservation agent dispatched and calling " ++ args.restaurant_name ++
      " (" ++ args.phone_number ++ ")!\n\n" ++
      "The agent is now contacting the restaurant to make your reservation for " ++
      toString args.party_size ++
      " people. Use get_latest_agent_status to check progress.",
     st2,
     some ⟨appId, userId, channel, "reservation-booking", args.phone_number⟩⟩

/-!
## `createSpecializedVoiceAgent`: the detached background continuation

All failure paths inside the source function are wrapped in `try`/`catch`
blocks that convert the failure into a *resolved* string result, so the
promise returned to the wrapper never rejects.  The embedding makes this
explicit: `createSpecializedVoiceAgent` is a total function returning the
resolved string together with the updated stores.
-/

/-- The centralized `config` of `src/libs/utils.ts` as consumed by
`createSpecializedVoiceAgent` (an unset environment variable is `""`). -/
structure EnvConfig where
  convoAiBaseUrl : String
  llmUrl : String
  llmApiKey : String
  ttsVendor : String
  elevenlabsApiKey : String
  elevenlabsModelId : String
  elevenlabsVoiceId : String
  microsoftKey : String
  microsoftRegion : String
  microsoftVoiceName : String
deriving DecidableEq, Repr

/-- The `missingConfig` list computed at the top of
`createSpecializedVoiceAgent`. -/
def missingConfig (cfg : EnvConfig) : List String :=
  (if cfg.convoAiBaseUrl = "" then ["AGORA_CONVO_AI_BASE_URL"] else []) ++
  (if cfg.llmUrl = "" then ["LLM_URL"] else []) ++
  (if cfg.llmApiKey = "" then ["LLM_API_KEY"] else []) ++
  (if cfg.ttsVendor = "elevenlabs" then
    (if cfg.elevenlabsApiKey = "" then ["ELEVENLABS_API_KEY"] else []) ++
    (if cfg.elevenlabsModelId = "" then ["ELEVENLABS_MODEL_ID"] else []) ++
    (if cfg.elevenlabsVoiceId = "" then ["ELEVENLABS_VOICE_ID"] else [])
  else if cfg.ttsVendor = "microsoft" then
    (if cfg.microsoftKey = "" then ["MICROSOFT_TTS_KEY"] else []) ++
    (if cfg.microsoftRegion = "" then ["MICROSOFT_TTS_REGION"] else []) ++
    (if cfg.microsoftVoiceName = "" then ["MICROSOFT_TTS_VOICE_NAME"] else [])
  else [])

/-- Behaviour of the external collaborators during one background run:
the provisioning `join` call, the returned agent id, and the telephony
bridge (which either throws or returns a result string). -/
structure RemoteEnv where
  timestamp : Int
  now : Int
  randomSuffix : String
  joinOk : Bool
  joinStatus : Nat
  joinStatusText : String
  joinErrorBody : String
  agent_id : Option String
  callThrows : Bool
  callErrorMsg : String
  callResult : String
deriving DecidableEq, Repr

/-- The missing-configuration error string. -/
def missingConfigMsg (missing : List String) : String :=
  "Error: Specialized voice agents require additional configuration. " ++
  "Missing environment variables: " ++ joinSep ", " missing ++
  ". Please set these variables and restart the server."

/-- The agent-details block shared by both phone-call failure strings. -/
def agentDetailsBlock (specialization specializedChannelName : String)
    (agentId : Option String) (phoneNumber : String) : String :=
  "Agent Details:\n- Type: " ++ specialization ++
  "\n- Channel: " ++ specializedChannelName ++
  "\n- Agent ID: " ++ jsOrDefault agentId "Unknown ID" ++
  "\n- Phone Number: " ++ phoneNumber

/-- The response when the bridge result text matched a failure substring. -/
def callFailedMsg (specialization specializedChannelName : String)
    (agentId : Option String) (phoneNumber callResult : String) : String :=
  specialization ++ " agent created successfully, but phone call failed.\n\n" ++
  agentDetailsBlock specialization specializedChannelName agentId phoneNumber ++
  "\n\nPhone Call Error: " ++ callResult ++
  "\n\nThe agent is ready but the phone call couldn" ++ apos ++
  "t connect. This might be due to:\n- Invalid phone number format\n" ++
  "- Network/PSTN configuration issues\n- Restaurant phone line unavailable\n\n" ++
  "You can try calling " ++ phoneNumber ++ " manually to place your order."

/-- The response when the telephony bridge threw. -/
def phoneThrewMsg (specialization specializedChannelName : String)
    (agentId : Option String) (phoneNumber errorMessage : String) : String :=
  specialization ++ " agent created successfully, but phone call failed.\n\n" ++
  agentDetailsBlock specialization specializedChannelName agentId phoneNumber ++
  "\n\nPhone Call Error: " ++ errorMessage ++
  "\n\nThe agent is ready but you" ++ apos ++
  "ll need to manually connect the phone call. You can try calling " ++
  phoneNumber ++ " manually to connect to the agent."

/-- The success response. -/
def dispatchSuccessMsg (specialization phoneNumber : String) : String :=
  "✅ " ++ specialization ++ " agent created and calling " ++ phoneNumber ++
  "!\n\n🔄 **Automatic monitoring started** - I" ++ apos ++
  "ll provide real-time updates as your " ++ specialization ++
  " progresses.\n\nInitial status will be available shortly..."

/-- `createSpecializedVoiceAgent` from `versionedFunctionMap.ts`: validate
configuration, provision the remote agent, record its id, resolve the call
action and place the call, and on success register the polling session.
Every failure is converted into a returned string (the surrounding
`try`/`catch` of the source); the channel dispatch guard is never touched. -/
def createSpecializedVoiceAgent (cfg : EnvConfig) (env : RemoteEnv)
    (appId userId channel specialization phoneNumber : String)
    (st : SysState) : String × SysState :=
  let missing := missingConfig cfg
  if missing ≠ [] then (missingConfigMsg missing, st)
  else if cfg.ttsVendor ≠ "elevenlabs" ∧ cfg.ttsVendor ≠ "microsoft" then
    -- `getTTSConfig` throws; the outer catch renders the thrown message
    ("Error creating " ++ specialization ++ " agent: Unsupported TTS vendor: " ++
      cfg.ttsVendor ++ ". Supported vendors: elevenlabs, microsoft", st)
  else
    let specializedChannelName :=
      "specialized-" ++ specialization ++ "-" ++ toString env.timestamp ++ "-" ++
        env.randomSuffix
    if !env.joinOk then
      ("Error creating " ++ specialization ++ " agent: " ++
        toString env.joinStatus ++ " " ++ env.joinStatusText ++ " - " ++
        env.joinErrorBody, st)
    else
      let st1 :=
        match env.agent_id with
        | some aid =>
          storeAgentInfo userId aid specialization specializedChannelName
            env.timestamp st
        | none => st
      let ca := getCallAction channel env.now st1.callActionStore
      let st2 := { st1 with callActionStore := ca.2 }
      if env.callThrows then
        (phoneThrewMsg specialization specializedChannelName env.agent_id
          phoneNumber env.callErrorMsg, st2)
      else if strContains env.callResult "Failed" ||
          strContains env.callResult "Error" ||
          strContains env.callResult "Invalid" then
        (callFailedMsg specialization specializedChannelName env.agent_id
          phoneNumber env.callResult, st2)
      else
        match env.agent_id with
        | some aid =>
          (dispatchSuccessMsg specialization phoneNumber,
            startAgentPolling appId userId channel aid specialization st2)
        | none => (dispatchSuccessMsg specialization phoneNumber, st2)

/-- Completion of the detached promise spawned by a dispatch wrapper.
The `.catch` handler the wrappers attach (which would delete the channel
guard) runs only on a *rejected* promise; `createSpecializedVoiceAgent`
always resolves with a string, so the handler never runs and the completion
is exactly the function itself. -/
def runBackground (cfg : EnvConfig) (env : RemoteEnv) (task : BackgroundTask)
    (st : SysState) : String × SysState :=
  createSpecializedVoiceAgent cfg env task.appId task.userId task.channel
    task.specialization task.phoneNumber st

/-!
## `src/services/cerebrasService.ts`: the per-turn tool-call loop of
`processNonStreamingRequest`

The Cerebras client, the version-scoped handler registry and the
classification maps are external collaborators, abstracted as the functions
of `ToolEnv`.  Handler execution is recorded in the ghost field
`LoopState.invoked` so that invocation counts can be stated.
-/

/-- Chat message roles. -/
inductive Role where
  | system
  | user
  | assistant
  | tool
deriving DecidableEq, Repr

/-- One chat message (a `null` content is modelled as `""`, which is equally
falsy in every guard of the source). -/
structure Msg where
  role : Role
  content : String
  tool_call_id : Option String
deriving DecidableEq, Repr

/-- One tool-call request of the assistant turn. -/
structure ToolCall where
  id : String
  name : String
  args : String
deriving DecidableEq, Repr

/-- The `affirmation`/`data` result classification. -/
inductive RType where
  | affirmation
  | dataTool
deriving DecidableEq, Repr

/-- External collaborators of the loop: membership in the version-scoped
function map, handler execution, and the union of
`extendedToolResponseTypes` over `toolResponseTypes`. -/
structure ToolEnv where
  registry : String → Bool
  exec : String → String → String
  respType : String → Option RType

/-- The loop state: `fullMessages`, the `executedFunctions` set, the
`hasDataTools` flag, and the ghost log of handler invocations. -/
structure LoopState where
  msgs : List Msg
  executed : List String
  hasDataTools : Bool
  invoked : List String
deriving DecidableEq, Repr

/-- The three call-initiating function names special-cased by the loop. -/
def phoneFnNames : List String := ["call_hermes_phone", "call_phone", "call_sid_phone"]

/-- Phrases whose presence in a recent assistant message indicates a call
was already initiated. -/
def assistantCallPhrases : List String :=
  ["Phone call initiated", "call initiated", "Calling",
   "I" ++ apos ++ "ll call", "Making a call"]

/-- Phrases whose presence in a recent tool message indicates a call was
already initiated. -/
def toolCallPhrases : List String :=
  ["Phone call initiated successfully", "call initiated", "Call ID:"]

/-- Greeting phrases indicating a human joined the conversation. -/
def joinedPhrases : List String :=
  ["hello", "hi ", "hey", "good morning", "good afternoon", "good evening",
   "who is this", "who" ++ apos ++ "s calling"]

/-- The `hasRecentCall` scan over the last 15 messages. -/
def hasRecentCall (recentMessages : List Msg) : Bool :=
  recentMessages.any (fun m =>
    match m.role with
    | .assistant =>
      m.content ≠ "" && assistantCallPhrases.any (fun p => strContains m.content p)
    | .tool =>
      m.content ≠ "" && toolCallPhrases.any (fun p => strContains m.content p)
    | _ => false)

/-- The `someoneJoined` scan over the last 15 messages. -/
def someoneJoined (recentMessages : List Msg) : Bool :=
  recentMessages.any (fun m =>
    match m.role with
    | .user =>
      m.content ≠ "" && joinedPhrases.any (fun p => strContains (lowerStr m.content) p)
    | _ => false)

/-- Synthetic tool result substituted when someone already joined. -/
def joinedActiveMsg : String :=
  "A call is already active and someone has joined the conversation. " ++
  "Continue talking with them instead of making another call."

/-- Synthetic tool result substituted when a call was initiated recently. -/
def recentCallMsg : String :=
  "A call was already initiated recently. The call should be connecting or active."

/-- One iteration of the `for (const toolCall of choice.tool_calls)` loop in
`processNonStreamingRequest`: skip names already executed; for registered
call-initiating names in an already-active conversation substitute a
synthetic result without marking the name executed; otherwise mark the name
executed, run the handler, and append the result as a tool message when the
name is classified (`affirmation` or `data`).  Unknown names are dropped. -/
def processToolCall (env : ToolEnv) (s : LoopState) (tc : ToolCall) : LoopState :=
  if s.executed.contains tc.name then s
  else if env.registry tc.name then
    let recentMessages := lastN 15 s.msgs
    if phoneFnNames.contains tc.name &&
        (hasRecentCall recentMessages || someoneJoined recentMessages) then
      let content :=
        if someoneJoined recentMessages then joinedActiveMsg else recentCallMsg
      { s with msgs := s.msgs ++ [⟨.tool, content, some tc.id⟩], hasDataTools := true }
    else
      let s1 := { s with
        executed := s.executed ++ [tc.name]
        invoked := s.invoked ++ [tc.name] }
      let result := env.exec tc.name tc.args
      match env.respType tc.name with
      | some .affirmation =>
        { s1 with msgs := s1.msgs ++ [⟨.tool, result, some tc.id⟩], hasDataTools := true }
      | some .dataTool =>
        { s1 with msgs := s1.msgs ++ [⟨.tool, result, some tc.id⟩], hasDataTools := true }
      | none => s1
  else s

/-- The whole tool-call loop over one turn. -/
def runLoop (env : ToolEnv) (s : LoopState) (tcs : List ToolCall) : LoopState :=
  tcs.foldl (processToolCall env) s

/-- Result of one `processNonStreamingRequest` turn: the final answer and
the message lists of the follow-up completion requests that were issued. -/
structure TurnOut where
  answer : String
  followUps : List (List Msg)
deriving DecidableEq, Repr

/-- A message survives the pre-follow-up cleanup (`system`/`user`/`tool`). -/
def keptRole (m : Msg) : Bool :=
  m.role == .system || m.role == .user || m.role == .tool

/-- The tail of `processNonStreamingRequest` once the response carries tool
calls: push the assistant turn, run the loop, and when any tool result was
produced issue exactly one follow-up request — with all assistant messages
filtered out unless the model is `qwen-3-32b` — returning its answer;
otherwise return the original answer.  `complete` abstracts the follow-up
Cerebras call. -/
def processToolTurn (env : ToolEnv) (model : String)
    (complete : List Msg → String) (origAnswer origContent : String)
    (tcs : List ToolCall) (fullMessages : List Msg) : TurnOut :=
  if tcs = [] then ⟨origAnswer, []⟩
  else
    let msgs0 := fullMessages ++ [⟨.assistant, origContent, none⟩]
    let res := runLoop env ⟨msgs0, [], false, []⟩ tcs
    if res.hasDataTools then
      let finalMsgs :=
        if model ≠ "qwen-3-32b" then res.msgs.filter keptRole else res.msgs
      ⟨complete finalMsgs, [finalMsgs]⟩
    else ⟨origAnswer, []⟩

/-!
## Concrete fixtures used by counterexamples and witnesses
-/

/-- A state whose only content is a held dispatch guard for channel `c1`. -/
def stGuard : SysState :=
  { SysState.empty with activeSpecializedAgents := [("c1", true)] }

/-- A configuration with the conversational-AI base URL unset. -/
def cfgMissing : EnvConfig :=
  ⟨"", "http://llm", "key", "elevenlabs", "k", "m", "v", "", "", ""⟩

/-- A remote environment in which provisioning would fail (never reached
when the configuration is already incomplete). -/
def envFail : RemoteEnv :=
  ⟨1000, 1000, "abc123", false, 500, "ERR", "body", none, false, "", ""⟩

/-- A polling session for agent `a1` on channel `c1`. -/
def sessA : PollingSession := ⟨"a1", "u", "c1", "phone-ordering", 0, "STARTING", 0, none⟩

/-- A conversation-context entry for channel `c1`. -/
def ctxA : ContextEntry := ⟨"a1", "phone-ordering", "ok", [⟨5, "ok", .UPDATE⟩]⟩

/-- A state with a full set of bookkeeping for channel `c1`: held guard,
polling session, polling callback and conversation context. -/
def stFull : SysState :=
  { SysState.empty with
    activeSpecializedAgents := [("c1", true)]
    activePollingSessions := [("c1-a1", sessA)]
    pollingCallbacks := [("c1", ⟨"app", "u", "c1", "a1", "phone-ordering"⟩)]
    conversationContext := [("c1", ctxA)] }

/-- A loop environment registering exactly the call-initiating names. -/
def envPhoneOnly : ToolEnv :=
  ⟨fun n => phoneFnNames.contains n, fun n _ => "ran " ++ n, fun _ => some .affirmation⟩

/-- A turn history whose assistant already reported an initiated call. -/
def msgsRecentCall : List Msg :=
  [⟨.system, "sys", none⟩, ⟨.user, "please call", none⟩,
   ⟨.assistant, "Phone call initiated to the restaurant.", none⟩]

/-- The loop run on two identical `call_hermes_phone` requests after a call
was already initiated. -/
def dupPhoneRun : LoopState :=
  runLoop envPhoneOnly ⟨msgsRecentCall ++ [⟨.assistant, "", none⟩], [], false, []⟩
    [⟨"id1", "call_hermes_phone", ""⟩, ⟨"id2", "call_hermes_phone", ""⟩]

/-- A loop environment registering a single data tool. -/
def envOneData : ToolEnv :=
  ⟨fun n => n == "search_yelp_restaurants", fun n _ => "results for " ++ n,
   fun _ => some .dataTool⟩

/-- A turn of one data tool call processed under the `qwen-3-32b` model. -/
def qwenTurn : TurnOut :=
  processToolTurn envOneData "qwen-3-32b" (fun _ => "final") "orig" "asst"
    [⟨"t1", "search_yelp_restaurants", ""⟩]
    [⟨.system, "sys", none⟩, ⟨.user, "find pizza", none⟩]

/-- A one-user PhoneDirectory holding a single entry for Tony's Pizza. -/
def tonysIdx : RestaurantIndex :=
  [("u", [("id1", ⟨"Tony" ++ apos ++ "s Pizza", "+15551234567", "id1", 5⟩)])]

/-!
## Association-list helper lemmas
-/

theorem alGet_alSet_self {α : Type} (k : String) (v : α) (l : List (String × α)) :
    alGet k (alSet k v l) = some v := by
  induction l with
  | nil => simp [alGet, alSet]
  | cons h t ih =>
    obtain ⟨k₂, v₂⟩ := h
    by_cases hk : k₂ = k <;> simp [alGet, alSet, hk, ih]

theorem alGet_alSet_ne {α : Type} {k k₂ : String} (v : α) (l : List (String × α))
    (h : k₂ ≠ k) : alGet k (alSet k₂ v l) = alGet k l := by
  induction l with
  | nil => simp [alGet, alSet, h]
  | cons hd t ih =>
    obtain ⟨k₃, v₃⟩ := hd
    by_cases hk : k₃ = k₂ <;> by_cases hk2 : k₃ = k <;>
      simp_all [alGet, alSet]

theorem alSet_length {α : Type} {k : String} (v : α) {l : List (String × α)}
    (h : (alGet k l).isSome) : (alSet k v l).length = l.length := by
  induction l with
  | nil => simp [alGet] at h
  | cons hd t ih =>
    obtain ⟨k₂, v₂⟩ := hd
    by_cases hk : k₂ = k
    · simp [alSet, hk]
    · simp only [alGet, hk, if_false] at h
      simp [alSet, hk, ih h]

theorem alGet_append_left {α : Type} {k : String} {v : α} {l₁ : List (String × α)}
    (l₂ : List (String × α)) (h : alGet k l₁ = some v) :
    alGet k (l₁ ++ l₂) = some v := by
  induction l₁ with
  | nil => simp [alGet] at h
  | cons hd t ih =>
    obtain ⟨k₂, v₂⟩ := hd
    by_cases hk : k₂ = k <;> simp_all [alGet]

theorem alGet_alDel_self {α : Type} (k : String) (l : List (String × α)) :
    alGet k (alDel k l) = none := by
  induction l with
  | nil => simp [alGet, alDel]
  | cons hd t ih =>
    obtain ⟨k₂, v₂⟩ := hd
    by_cases hk : k₂ = k <;> simp_all [alGet, alDel, List.filter]

theorem alGet_isSome_of_mem {α : Type} {k : String} {v : α} {l : List (String × α)}
    (h : (k, v) ∈ l) : (alGet k l).isSome := by
  induction l with
  | nil => simp at h
  | cons hd t ih =>
    obtain ⟨k₂, v₂⟩ := hd
    by_cases hk : k₂ = k
    · simp [alGet, hk]
    · simp only [List.mem_cons] at h
      rcases h with h | h
      · exact absurd (congrArg Prod.fst h).symm hk
      · simp [alGet, hk, ih h]

/-!
## Claim theorems
-/

/-- C10: `formatPhoneNumber` returns `+` followed by the input's digits with
a leading `1` prepended whenever the digit string does not already start
with `1`; consequently the result always begins with `+1`, so a non-US
international number whose digits start with `44` is silently given the US
country code. -/
theorem c10_formatPhoneNumber_spec :
    (∀ s, (formatPhoneNumber s).data.take 2 = ['+', '1']) ∧
    (∀ s, (s.data.filter Char.isDigit).head? = some '1' →
      (formatPhoneNumber s).data = '+' :: s.data.filter Char.isDigit) ∧
    (∀ s, (s.data.filter Char.isDigit).head? ≠ some '1' →
      (formatPhoneNumber s).data = '+' :: '1' :: s.data.filter Char.isDigit) ∧
    formatPhoneNumber "+442071234567" = "+1442071234567" := by
  refine ⟨?_, ?_, ?_, by decide⟩
  · intro s
    unfold formatPhoneNumber
    dsimp only
    rcases h : s.data.filter Char.isDigit with _ | ⟨c, t⟩
    · decide
    · by_cases hc : c = '1' <;> simp [hc]
  · intro s h
    unfold formatPhoneNumber
    dsimp only
    rw [if_pos h]
  · intro s h
    unfold formatPhoneNumber
    dsimp only
    rw [if_neg h]

/-- C10 witness: concrete instances discharging the hypotheses of
`c10_formatPhoneNumber_spec`. -/
theorem c10_formatPhoneNumber_spec_witness :
    (formatPhoneNumber "555-123-4567").data.take 2 = ['+', '1'] ∧
    (formatPhoneNumber "15551234567").data = '+' :: "15551234567".data ∧
    (formatPhoneNumber "5551234567").data = '+' :: '1' :: "5551234567".data := by
  refine ⟨c10_formatPhoneNumber_spec.1 _, ?_, ?_⟩
  · have h := c10_formatPhoneNumber_spec.2.1 "15551234567" (by decide)
    simpa using h
  · have h := c10_formatPhoneNumber_spec.2.2.1 "5551234567" (by decide)
    simpa using h

/-- C8: for every (non-empty) channel, `getCallAction` returns the fixed
default `call_hermes` when nothing is stored and when the stored entry is
more than one hour old — deleting the stale entry in the latter case — and
returns a non-expired stored preference as stored. -/
theorem c8_getCallAction_spec :
    ∀ channel now store, channel ≠ "" →
      (alGet channel store = none →
        getCallAction channel now store = ("call_hermes", store)) ∧
      (∀ e, alGet channel store = some e → now - e.timestamp > 60 * 60 * 1000 →
        getCallAction channel now store = ("call_hermes", alDel channel store) ∧
        alGet channel (alDel channel store) = none) ∧
      (∀ e, alGet channel store = some e → ¬(now - e.timestamp > 60 * 60 * 1000) →
        getCallAction channel now store = (e.callAction, store)) := by
  intro channel now store hch
  refine ⟨?_, ?_, ?_⟩
  · intro h
    simp [getCallAction, hch, h]
  · intro e h hexp
    have hlt : e.timestamp < now - 60 * 60 * 1000 := by omega
    refine ⟨?_, alGet_alDel_self channel store⟩
    unfold getCallAction
    rw [if_neg hch]
    simp only [h]
    rw [if_pos hlt]
  · intro e h hexp
    have hlt : ¬ e.timestamp < now - 60 * 60 * 1000 := by omega
    unfold getCallAction
    rw [if_neg hch]
    simp only [h]
    rw [if_neg hlt]

/-- C8 witness: concrete instances discharging the hypotheses of
`c8_getCallAction_spec`. -/
theorem c8_getCallAction_spec_witness :
    (getCallAction "c" 7200000 [] = ("call_hermes", [])) ∧
    (getCallAction "c" 7200001 [("c", ⟨"live", 3600000⟩)] = ("call_hermes", []) ∧
      alGet "c" (alDel "c" [("c", (⟨"live", 3600000⟩ : CallActionEntry))]) = none) ∧
    (getCallAction "c" 7200000 [("c", ⟨"live", 3600000⟩)] =
      ("live", [("c", ⟨"live", 3600000⟩)])) := by
  refine ⟨?_, ?_, ?_⟩
  · exact (c8_getCallAction_spec "c" 7200000 [] (by decide)).1 (by decide)
  · have h := (c8_getCallAction_spec "c" 7200001 [("c", ⟨"live", 3600000⟩)]
      (by decide)).2.1 ⟨"live", 3600000⟩ (by decide) (by decide)
    simpa [alDel, List.filter] using h
  · exact (c8_getCallAction_spec "c" 7200000 [("c", ⟨"live", 3600000⟩)]
      (by decide)).2.2 ⟨"live", 3600000⟩ (by decide) (by decide)

/-- C7: `findPhoneNumber` normalizes the query and every stored name
(lowercase, strip non-alphanumerics), accepts a match in either containment
direction, and returns the first matching entry's phone; in particular for
a stored entry named Tony's Pizza the queries Tony's and tonys pizza both
resolve to that entry's phone. -/
theorem c7_findPhoneNumber_spec :
    (∀ userId restaurantName idx userIndex p,
      alGet userId idx = some userIndex →
      userIndex.find? (fun q => nameMatches restaurantName q.2.name) = some p →
      findPhoneNumber userId restaurantName idx = some p.2.phone) ∧
    findPhoneNumber "u" ("Tony" ++ apos ++ "s") tonysIdx = some "+15551234567" ∧
    findPhoneNumber "u" "tonys pizza" tonysIdx = some "+15551234567" := by
  refine ⟨?_, by decide, by decide⟩
  intro userId restaurantName idx userIndex p hidx hfind
  have hne : userIndex ≠ [] := by
    intro h
    rw [h] at hfind
    simp at hfind
  simp [findPhoneNumber, hidx, List.isEmpty_iff, hne, hfind]

/-- C7 witness: the Tony's Pizza lookup obtained through the general part of
`c7_findPhoneNumber_spec`. -/
theorem c7_findPhoneNumber_spec_witness :
    findPhoneNumber "u" ("Tony" ++ apos ++ "s") tonysIdx = some "+15551234567" := by
  exact c7_findPhoneNumber_spec.1 "u" ("Tony" ++ apos ++ "s") tonysIdx
    [("id1", ⟨"Tony" ++ apos ++ "s Pizza", "+15551234567", "id1", 5⟩)]
    ("id1", ⟨"Tony" ++ apos ++ "s Pizza", "+15551234567", "id1", 5⟩)
    (by decide) (by decide)

/-- C9: `stop_agent_polling` on a channel with no locatable polling session
(no truthy agent id and no session for the channel, or an explicit agent id
whose session key is absent) returns a no-active message and leaves the
whole state — dispatch guard and conversation context included — unchanged,
so a guard left held without a polling session cannot be released through
stop. -/
theorem c9_stopAgentPolling_noSession :
    (∀ appId userId channel reason st,
      st.activePollingSessions.find? (fun q => q.2.channel = channel) = none →
      stopAgentPolling appId userId channel ⟨none, reason⟩ st =
        ("No active agent found to stop.", st)) ∧
    (∀ appId userId channel aid reason st, aid ≠ "" →
      alGet (channel ++ "-" ++ aid) st.activePollingSessions = none →
      stopAgentPolling appId userId channel ⟨some aid, reason⟩ st =
        ("No active polling session found for agent " ++ aid ++ ".", st)) := by
  constructor
  · intro appId userId channel reason st h
    simp [stopAgentPolling, jsStr, h]
  · intro appId userId channel aid reason st haid h
    simp [stopAgentPolling, jsStr, haid, h]

/-- C9 witness: both no-session branches of `c9_stopAgentPolling_noSession`
at the concrete state `stFull` (whose only session is `c1-a1`). -/
theorem c9_stopAgentPolling_noSession_witness :
    stopAgentPolling "app" "u" "c2" ⟨none, none⟩ stFull =
      ("No active agent found to stop.", stFull) ∧
    stopAgentPolling "app" "u" "c1" ⟨some "zz", none⟩ stFull =
      ("No active polling session found for agent zz.", stFull) := by
  constructor
  · exact c9_stopAgentPolling_noSession.1 "app" "u" "c2" none stFull (by decide)
  · exact c9_stopAgentPolling_noSession.2 "app" "u" "c1" "zz" none stFull
      (by decide) (by decide)

/-- C1 counterexample: with the dispatch guard held for channel `c1`, a call
to `call_and_ask_question_agent` whose `question` field is empty is rejected
with the missing-field error, not the already-active error — so not *every*
call made while the guard is held returns the already-active string. -/
theorem c1_guardReject_counterexample :
    guardHeld stGuard "c1" = true ∧
    (callAndAskQuestionAgent "app" "u" "c1" ⟨"5551234567", "R", ""⟩ stGuard).reply =
      missingFieldsMsg ["question"] ∧
    (callAndAskQuestionAgent "app" "u" "c1" ⟨"5551234567", "R", ""⟩ stGuard).reply ≠
      alreadyActiveMsg := by
  refine ⟨by decide, by decide, by decide⟩

/-- C1 (amended): while the guard is held for a channel, any dispatch call
that passes the pre-guard validation steps is rejected with the
already-active error, with the state unchanged and no background
continuation spawned; and once `stop_agent_polling` locates and removes a
session for the channel, the guard is released, so a subsequent validated
dispatch is not rejected by the guard. -/
theorem c1_guardReject_spec :
    (∀ appId userId channel args st p,
      orderMissing args = [] → badCustomerName args.customer_name = false →
      resolveOrderPhone userId args st = some p →
      guardHeld st channel = true →
      placePhoneOrderAgent appId userId channel args st = ⟨alreadyActiveMsg, st, none⟩) ∧
    (∀ appId userId channel args st,
      reservationMissing args = [] → badCustomerName args.customer_name = false →
      phonePat args.phone_number = true →
      guardHeld st channel = true →
      makeReservationAgent appId userId channel args st = ⟨alreadyActiveMsg, st, none⟩) ∧
    (∀ appId userId channel args st,
      inquiryMissing args = [] →
      guardHeld st channel = true →
      callAndAskQuestionAgent appId userId channel args st = ⟨alreadyActiveMsg, st, none⟩) ∧
    (∀ appId userId channel aid reason st, aid ≠ "" →
      (alGet (channel ++ "-" ++ aid) st.activePollingSessions).isSome →
      guardHeld (stopAgentPolling appId userId channel ⟨some aid, reason⟩ st).2 channel = false) ∧
    (∀ appId userId channel reason st p,
      st.activePollingSessions.find? (fun q => q.2.channel = channel) = some p →
      guardHeld (stopAgentPolling appId userId channel ⟨none, reason⟩ st).2 channel = false) ∧
    (∀ appId userId channel args st,
      inquiryMissing args = [] →
      guardHeld st channel = false →
      (callAndAskQuestionAgent appId userId channel args st).task =
        some ⟨appId, userId, channel, "restaurant-inquiry", args.phone_number⟩) := by
  refine ⟨?_, ?_, ?_, ?_, ?_, ?_⟩
  · intro appId userId channel args st p hmiss hname hres hguard
    simp [placePhoneOrderAgent, hmiss, hname, hres, hguard]
  · intro appId userId channel args st hmiss hname hphone hguard
    simp [makeReservationAgent, hmiss, hname, hphone, hguard]
  · intro appId userId channel args st hmiss hguard
    simp [callAndAskQuestionAgent, hmiss, hguard]
  · intro appId userId channel aid reason st haid hsess
    rw [Option.isSome_iff_exists] at hsess
    obtain ⟨sess, hsess⟩ := hsess
    simp [stopAgentPolling, jsStr, haid, hsess, guardHeld, alGet_alDel_self]
  · intro appId userId channel reason st p hfind
    have hmem := List.mem_of_find?_eq_some hfind
    have hsome := alGet_isSome_of_mem (k := p.1) (v := p.2) hmem
    rw [Option.isSome_iff_exists] at hsome
    obtain ⟨sess, hsess⟩ := hsome
    simp [stopAgentPolling, jsStr, hfind, hsess, guardHeld, alGet_alDel_self]
  · intro appId userId channel args st hmiss hguard
    simp [callAndAskQuestionAgent, hmiss, hguard]

/-- C1 witness: concrete instances discharging the hypotheses of every part
of `c1_guardReject_spec`. -/
theorem c1_guardReject_spec_witness :
    placePhoneOrderAgent "app" "u" "c1" ⟨"5551234567", "R", "Jane Doe", "pizza", "pickup", "n/a"⟩ stGuard =
      ⟨alreadyActiveMsg, stGuard, none⟩ ∧
    makeReservationAgent "app" "u" "c1" ⟨"5551234567", "R", "Jane Doe", 2, "7pm"⟩ stGuard =
      ⟨alreadyActiveMsg, stGuard, none⟩ ∧
    callAndAskQuestionAgent "app" "u" "c1" ⟨"5551234567", "R", "open?"⟩ stGuard =
      ⟨alreadyActiveMsg, stGuard, none⟩ ∧
    guardHeld (stopAgentPolling "app" "u" "c1" ⟨some "a1", none⟩ stFull).2 "c1" = false ∧
    guardHeld (stopAgentPolling "app" "u" "c1" ⟨none, none⟩ stFull).2 "c1" = false ∧
    (callAndAskQuestionAgent "app" "u" "c1" ⟨"5551234567", "R", "open?"⟩ SysState.empty).task =
      some ⟨"app", "u", "c1", "restaurant-inquiry", "5551234567"⟩ := by
  refine ⟨?_, ?_, ?_, ?_, ?_, ?_⟩
  · exact c1_guardReject_spec.1 "app" "u" "c1" _ stGuard "5551234567"
      (by decide) (by decide) (by decide) (by decide)
  · exact c1_guardReject_spec.2.1 "app" "u" "c1" _ stGuard
      (by decide) (by decide) (by decide) (by decide)
  · exact c1_guardReject_spec.2.2.1 "app" "u" "c1" _ stGuard (by decide) (by decide)
  · exact c1_guardReject_spec.2.2.2.1 "app" "u" "c1" "a1" none stFull (by decide) (by decide)
  · exact c1_guardReject_spec.2.2.2.2.1 "app" "u" "c1" none stFull ("c1-a1", sessA) (by decide)
  · exact c1_guardReject_spec.2.2.2.2.2 "app" "u" "c1" _ SysState.empty
      (by decide) (by decide)

/-- C3 counterexample: `stop_agent_polling` succeeds on channel `c1` of
`stFull` yet the channel's conversation-context entry survives — the claim
that stop deletes the ConversationContextEntry is false on the code. -/
theorem c3_stop_counterexample :
    (stopAgentPolling "app" "u" "c1" ⟨none, some "done"⟩ stFull).1 =
      "✅ Stopped monitoring agent a1. Reason: done" ∧
    alGet "c1" (stopAgentPolling "app" "u" "c1" ⟨none, some "done"⟩ stFull).2.conversationContext =
      some ctxA := by
  refine ⟨by decide, by decide⟩

/-- C3 (amended): `stop_agent_polling` locates the polling session (explicit
truthy agent id, else the first session on the channel), deletes the
PollingSession, the channel's polling-callback entry and the channel's
dispatch-guard flag (so a new dispatch becomes possible), and returns a
confirmation string including the given reason (default `manually stopped`)
— but it does NOT delete the channel's ConversationContextEntry, which
survives every stop call. -/
theorem c3_stopAgentPolling_spec :
    (∀ appId userId channel aid reason st, aid ≠ "" →
      (alGet (channel ++ "-" ++ aid) st.activePollingSessions).isSome →
      stopAgentPolling appId userId channel ⟨some aid, reason⟩ st =
        ("✅ Stopped monitoring agent " ++ aid ++ ". Reason: " ++
            jsOrDefault reason "manually stopped",
          { st with
            activePollingSessions :=
              alDel (channel ++ "-" ++ aid) st.activePollingSessions
            pollingCallbacks := alDel channel st.pollingCallbacks
            activeSpecializedAgents := alDel channel st.activeSpecializedAgents })) ∧
    (∀ appId userId channel reason st k sess,
      st.activePollingSessions.find? (fun q => q.2.channel = channel) = some (k, sess) →
      stopAgentPolling appId userId channel ⟨none, reason⟩ st =
        ("✅ Stopped monitoring agent " ++ sess.agentId ++ ". Reason: " ++
            jsOrDefault reason "manually stopped",
          { st with
            activePollingSessions := alDel k st.activePollingSessions
            pollingCallbacks := alDel channel st.pollingCallbacks
            activeSpecializedAgents := alDel channel st.activeSpecializedAgents })) ∧
    (∀ appId userId channel args st,
      (stopAgentPolling appId userId channel args st).2.conversationContext =
        st.conversationContext) := by
  refine ⟨?_, ?_, ?_⟩
  · intro appId userId channel aid reason st haid hsess
    rw [Option.isSome_iff_exists] at hsess
    obtain ⟨sess, hsess⟩ := hsess
    simp [stopAgentPolling, jsStr, haid, hsess]
  · intro appId userId channel reason st k sess hfind
    have hmem := List.mem_of_find?_eq_some hfind
    have hsome := alGet_isSome_of_mem (k := k) (v := sess) hmem
    rw [Option.isSome_iff_exists] at hsome
    obtain ⟨sess2, hsess2⟩ := hsome
    simp [stopAgentPolling, jsStr, hfind, hsess2]
  · intro appId userId channel args st
    unfold stopAgentPolling
    rcases jsStr args.agent_id with _ | aid
    · rcases hfind : st.activePollingSessions.find? (fun q => q.2.channel = channel)
        with _ | p
      · simp [hfind]
      · rcases hget : alGet p.1 st.activePollingSessions with _ | s2 <;>
          simp [hfind, hget]
    · rcases hget : alGet (channel ++ "-" ++ aid) st.activePollingSessions
        with _ | s2 <;> simp [hget]

/-- C3 witness: both locate modes of `c3_stopAgentPolling_spec` at the
concrete state `stFull`, plus the context preservation there. -/
theorem c3_stopAgentPolling_spec_witness :
    stopAgentPolling "app" "u" "c1" ⟨some "a1", some "call done"⟩ stFull =
      ("✅ Stopped monitoring agent a1. Reason: call done",
        { stFull with
          activePollingSessions := alDel "c1-a1" stFull.activePollingSessions
          pollingCallbacks := alDel "c1" stFull.pollingCallbacks
          activeSpecializedAgents := alDel "c1" stFull.activeSpecializedAgents }) ∧
    stopAgentPolling "app" "u" "c1" ⟨none, none⟩ stFull =
      ("✅ Stopped monitoring agent a1. Reason: manually stopped",
        { stFull with
          activePollingSessions := alDel "c1-a1" stFull.activePollingSessions
          pollingCallbacks := alDel "c1" stFull.pollingCallbacks
          activeSpecializedAgents := alDel "c1" stFull.activeSpecializedAgents }) ∧
    (stopAgentPolling "app" "u" "c1" ⟨none, none⟩ stFull).2.conversationContext =
      stFull.conversationContext := by
  refine ⟨?_, ?_, ?_⟩
  · have h := c3_stopAgentPolling_spec.1 "app" "u" "c1" "a1" (some "call done") stFull
      (by decide) (by decide)
    simpa using h
  · have h := c3_stopAgentPolling_spec.2.1 "app" "u" "c1" none stFull "c1-a1" sessA
      (by decide)
    simpa using h
  · exact c3_stopAgentPolling_spec.2.2 "app" "u" "c1" ⟨none, none⟩ stFull

/-- Ghost accounting of one loop iteration: either the executed set and the
invocation log are untouched (skip, synthetic substitution, unknown name),
or the name — not yet executed — is appended to both. -/
theorem processToolCall_ghost (env : ToolEnv) (s : LoopState) (tc : ToolCall) :
    ((processToolCall env s tc).invoked = s.invoked ∧
      (processToolCall env s tc).executed = s.executed) ∨
    ((processToolCall env s tc).invoked = s.invoked ++ [tc.name] ∧
      (processToolCall env s tc).executed = s.executed ++ [tc.name] ∧
      tc.name ∉ s.executed) := by
  unfold processToolCall
  by_cases h1 : tc.name ∈ s.executed
  · left
    simp [h1]
  · by_cases h2 : env.registry tc.name
    · by_cases h3 : tc.name ∈ phoneFnNames ∧
          (hasRecentCall (lastN 15 s.msgs) = true ∨ someoneJoined (lastN 15 s.msgs) = true)
      · left
        simp [h1, h2, h3]
      · rcases hrt : env.respType tc.name with _ | rt
        · right
          simp [h1, h2, h3, hrt]
        · cases rt <;> (right; simp [h1, h2, h3, hrt])
    · left
      simp [h1, h2]

/-- The dedup invariant of the loop: every name is invoked at most once and
every invoked name has been marked executed. -/
def LoopInv (s : LoopState) : Prop :=
  ∀ n, s.invoked.count n ≤ 1 ∧ (n ∈ s.invoked → n ∈ s.executed)

theorem processToolCall_inv (env : ToolEnv) (s : LoopState) (tc : ToolCall)
    (h : LoopInv s) : LoopInv (processToolCall env s tc) := by
  rcases processToolCall_ghost env s tc with ⟨hi, he⟩ | ⟨hi, he, hex⟩
  · intro n
    rw [hi, he]
    exact h n
  · intro n
    rw [hi, he]
    constructor
    · rw [List.count_append]
      by_cases hn : n = tc.name
      · have hnotin : n ∉ s.invoked := fun hmem => hex (hn ▸ (h n).2 hmem)
        have h0 : s.invoked.count n = 0 := List.count_eq_zero.mpr hnotin
        have h1 : List.count n [tc.name] = 1 := by simp [hn]
        omega
      · have h1 : List.count n [tc.name] = 0 :=
          List.count_eq_zero.mpr (by simp [hn])
        have := (h n).1
        omega
    · intro hmem
      rw [List.mem_append] at hmem ⊢
      rcases hmem with hmem | hmem
      · exact Or.inl ((h n).2 hmem)
      · exact Or.inr hmem

theorem runLoop_inv (env : ToolEnv) (tcs : List ToolCall) (s : LoopState)
    (h : LoopInv s) : LoopInv (runLoop env s tcs) := by
  induction tcs generalizing s with
  | nil => exact h
  | cons tc rest ih => exact ih _ (processToolCall_inv env s tc h)

/-- C4 counterexample: a turn with two identical `call_hermes_phone`
requests, in a history where a call was already initiated, appends the
synthetic already-active tool result twice — the duplicate request is not
skipped and a duplicate tool-result message is appended (the handler is
still never invoked). -/
theorem c4_dedup_counterexample :
    dupPhoneRun.invoked = [] ∧
    (dupPhoneRun.msgs.filter (fun m => m.content == recentCallMsg)).length = 2 := by
  refine ⟨by decide, by decide⟩

/-- C4 (amended): within one turn's loop every handler is invoked at most
once per function name, and a request whose name was already executed is
skipped with no effect at all; however a call-initiating name substituted
with a synthetic already-active result is never marked executed, so each
such duplicate appends another synthetic tool-result message (without
invoking the handler). -/
theorem c4_dedup_spec :
    (∀ env msgs tcs name,
      ((runLoop env ⟨msgs, [], false, []⟩ tcs).invoked.count name) ≤ 1) ∧
    (∀ env s tc, tc.name ∈ s.executed → processToolCall env s tc = s) := by
  constructor
  · intro env msgs tcs name
    have h0 : LoopInv ⟨msgs, [], false, []⟩ := by
      intro n
      simp [List.count_eq_zero]
    exact (runLoop_inv env tcs _ h0 name).1
  · intro env s tc h
    simp [processToolCall, h]

/-- C4 witness: the skip branch of `c4_dedup_spec` at a concrete state, and
the at-most-once bound on the duplicate-phone-call run. -/
theorem c4_dedup_spec_witness :
    processToolCall envPhoneOnly ⟨msgsRecentCall, ["call_phone"], false, ["call_phone"]⟩
        ⟨"id9", "call_phone", ""⟩ =
      ⟨msgsRecentCall, ["call_phone"], false, ["call_phone"]⟩ ∧
    (runLoop envPhoneOnly ⟨msgsRecentCall, [], false, []⟩
        [⟨"id1", "call_phone", ""⟩, ⟨"id2", "call_phone", ""⟩]).invoked.count "call_phone" ≤ 1 := by
  constructor
  · exact c4_dedup_spec.2 envPhoneOnly _ _ (by decide)
  · exact c4_dedup_spec.1 envPhoneOnly msgsRecentCall _ "call_phone"

/-- C5 counterexample: under the `qwen-3-32b` model a turn that produced a
tool result issues its single follow-up request with the assistant message
still present — the follow-up message list is not restricted to
system/user/tool messages. -/
theorem c5_followUp_counterexample :
    qwenTurn.followUps.length = 1 ∧
    qwenTurn.followUps.any (fun l => l.any (fun m => m.role == .assistant)) = true := by
  refine ⟨by decide, by decide⟩

/-- C5 (amended): when at least one tool result was produced the dispatcher
issues exactly one follow-up completion request and returns its answer as
the turn's final output; the follow-up message list is restricted to
system, user and tool messages for every model except `qwen-3-32b`, whose
follow-up keeps the full message list; when no tool result was produced
(or the turn had no tool calls) the original answer is returned with no
follow-up. -/
theorem c5_followUp_spec :
    ∀ env model complete origAnswer origContent tcs fullMessages,
      (processToolTurn env model complete origAnswer origContent tcs fullMessages).followUps.length ≤ 1 ∧
      (∀ fm,
        (processToolTurn env model complete origAnswer origContent tcs fullMessages).followUps = [fm] →
        (processToolTurn env model complete origAnswer origContent tcs fullMessages).answer =
          complete fm ∧
        (model ≠ "qwen-3-32b" → ∀ m ∈ fm, keptRole m = true)) ∧
      (tcs ≠ [] →
        (runLoop env ⟨fullMessages ++ [⟨.assistant, origContent, none⟩], [], false, []⟩ tcs).hasDataTools = true →
        (processToolTurn env model complete origAnswer origContent tcs fullMessages).followUps.length = 1) ∧
      ((runLoop env ⟨fullMessages ++ [⟨.assistant, origContent, none⟩], [], false, []⟩ tcs).hasDataTools = false →
        processToolTurn env model complete origAnswer origContent tcs fullMessages =
          ⟨origAnswer, []⟩) ∧
      (tcs = [] →
        processToolTurn env model complete origAnswer origContent tcs fullMessages =
          ⟨origAnswer, []⟩) := by
  intro env model complete origAnswer origContent tcs fullMessages
  by_cases htc : tcs = []
  · refine ⟨?_, ?_, ?_, ?_, ?_⟩ <;> simp [processToolTurn, htc]
  · by_cases hdt : (runLoop env ⟨fullMessages ++ [⟨.assistant, origContent, none⟩], [], false, []⟩ tcs).hasDataTools
    · by_cases hq : model = "qwen-3-32b"
      · subst hq
        refine ⟨?_, ?_, ?_, ?_, ?_⟩
        · simp [processToolTurn, htc, hdt]
        · intro fm hfm
          simp only [processToolTurn, if_neg htc, hdt, if_true] at hfm ⊢
          simp only [ne_eq, not_true_eq_false, if_false, List.cons.injEq, and_true] at hfm ⊢
          refine ⟨by rw [hfm], ?_⟩
          intro hmodel
          exact hmodel.elim
        · intro _ _
          simp [processToolTurn, htc, hdt]
        · intro hfalse
          rw [hdt] at hfalse
          cases hfalse
        · intro h
          exact absurd h htc
      · refine ⟨?_, ?_, ?_, ?_, ?_⟩
        · simp [processToolTurn, htc, hdt, hq]
        · intro fm hfm
          simp only [processToolTurn, if_neg htc, hdt, if_true] at hfm ⊢
          rw [if_pos (by exact hq)] at hfm ⊢
          simp only [List.cons.injEq, and_true] at hfm ⊢
          refine ⟨by rw [hfm], ?_⟩
          intro _ m hm
          rw [← hfm] at hm
          exact List.of_mem_filter hm
        · intro _ _
          simp [processToolTurn, htc, hdt, hq]
        · intro hfalse
          rw [hdt] at hfalse
          cases hfalse
        · intro h
          exact absurd h htc
    · have hdt2 : (runLoop env ⟨fullMessages ++ [⟨.assistant, origContent, none⟩], [], false, []⟩ tcs).hasDataTools = false := by
        simpa using hdt
      refine ⟨?_, ?_, ?_, ?_, ?_⟩
      · simp [processToolTurn, htc, hdt2]
      · intro fm hfm
        simp [processToolTurn, htc, hdt2] at hfm
      · intro _ hcontra
        rw [hdt2] at hcontra
        cases hcontra
      · intro _
        simp [processToolTurn, htc, hdt2]
      · intro h
        exact absurd h htc

/-- C5 witness: the follow-up branch of `c5_followUp_spec` instantiated on a
concrete non-qwen turn. -/
theorem c5_followUp_spec_witness :
    (processToolTurn envOneData "llama-4-scout-17b-16e-instruct" (fun _ => "final")
        "orig" "asst" [⟨"t1", "search_yelp_restaurants", ""⟩]
        [⟨.system, "sys", none⟩, ⟨.user, "find pizza", none⟩]).followUps.length = 1 ∧
    (processToolTurn envOneData "llama-4-scout-17b-16e-instruct" (fun _ => "final")
        "orig" "asst" [] [⟨.system, "sys", none⟩]) = ⟨"orig", []⟩ := by
  constructor
  · exact (c5_followUp_spec envOneData "llama-4-scout-17b-16e-instruct" (fun _ => "final")
      "orig" "asst" [⟨"t1", "search_yelp_restaurants", ""⟩]
      [⟨.system, "sys", none⟩, ⟨.user, "find pizza", none⟩]).2.2.1
      (by decide) (by decide)
  · exact (c5_followUp_spec envOneData "llama-4-scout-17b-16e-instruct" (fun _ => "final")
      "orig" "asst" [] [⟨.system, "sys", none⟩]).2.2.2.2 rfl

/-- One `storeYelpResults` step never changes the phone recorded for a
business id that is already present. -/
theorem storeOneResult_phone (now : Int) (uidx : List (String × DirEntry))
    (r : YelpResult) {bid : String} {e : DirEntry} (h : alGet bid uidx = some e) :
    ∃ e2, alGet bid (storeOneResult now uidx r) = some e2 ∧ e2.phone = e.phone := by
  unfold storeOneResult
  by_cases hp : r.phone = ""
  · simp only [hp, ne_eq, not_true_eq_false, false_and, if_false]
    exact ⟨e, h, rfl⟩
  · rcases hg : alGet r.id uidx with _ | e3
    · have hid : r.id ≠ bid := by
        intro hh
        rw [hh, h] at hg
        cases hg
      simp only [hg, hp, ne_eq, not_false_iff, Option.isNone_none, and_true, if_true]
      exact ⟨e, alGet_append_left _ h, rfl⟩
    · simp only [hg, hp, ne_eq, not_false_iff, Option.isNone_some, and_false, if_false,
        Option.isSome_some, and_true, if_true, Bool.false_eq_true]
      by_cases hid : r.id = bid
      · have he : e3 = e := by
          rw [hid, h] at hg
          exact ((Option.some.injEq _ _).mp hg).symm
        subst he
        rw [hid]
        exact ⟨_, alGet_alSet_self bid _ uidx, rfl⟩
      · exact ⟨e, by rw [alGet_alSet_ne _ uidx hid, h], rfl⟩

/-- Folding a whole results array never changes a recorded phone. -/
theorem foldl_store_phone (now : Int) (results : List YelpResult) :
    ∀ uidx bid e, alGet bid uidx = some e →
      ∃ e2, alGet bid (results.foldl (storeOneResult now) uidx) = some e2 ∧
        e2.phone = e.phone := by
  induction results with
  | nil => exact fun uidx bid e h => ⟨e, h, rfl⟩
  | cons r rest ih =>
    intro uidx bid e h
    obtain ⟨e2, h2, hp2⟩ := storeOneResult_phone now uidx r h
    obtain ⟨e3, h3, hp3⟩ := ih _ _ _ h2
    exact ⟨e3, h3, hp3.trans hp2⟩

/-- C6: PhoneDirectory recording is idempotent per business id — re-recording
a present businessId with the same phone keeps the directory size and the
stored phone, only refreshing `lastSeen`, and leaves every other entry
untouched; moreover no later `recordResults` call ever overwrites a
recorded phone. -/
theorem c6_phoneDirectory_spec :
    (∀ now uid idx uidx bid (e : DirEntry) (r : YelpResult),
      alGet uid idx = some uidx → alGet bid uidx = some e →
      r.id = bid → r.phone = e.phone → e.phone ≠ "" →
      alGet uid (storeYelpResults now uid [r] idx) =
        some (alSet bid { e with lastSeen := now } uidx) ∧
      (alSet bid { e with lastSeen := now } uidx).length = uidx.length ∧
      alGet bid (alSet bid { e with lastSeen := now } uidx) =
        some { e with lastSeen := now } ∧
      (∀ bid2, bid2 ≠ bid →
        alGet bid2 (alSet bid { e with lastSeen := now } uidx) = alGet bid2 uidx)) ∧
    (∀ now uid uid2 results idx uidx bid (e : DirEntry),
      alGet uid idx = some uidx → alGet bid uidx = some e →
      ∃ uidx2 e2, alGet uid (storeYelpResults now uid2 results idx) = some uidx2 ∧
        alGet bid uidx2 = some e2 ∧ e2.phone = e.phone) := by
  constructor
  · intro now uid idx uidx bid e r hu hb hid hph hne
    have hstep : storeOneResult now uidx r = alSet bid { e with lastSeen := now } uidx := by
      unfold storeOneResult
      rw [hid, hph]
      simp only [hb, Option.isNone_some, and_false, if_false, Option.isSome_some, and_true,
        ne_eq, hne, not_false_iff, if_true, Bool.false_eq_true]
    constructor
    · unfold storeYelpResults
      rw [hu]
      simp only [Option.getD_some, List.foldl_cons, List.foldl_nil, hstep]
      exact alGet_alSet_self uid _ idx
    · refine ⟨alSet_length _ (by rw [hb]; rfl), alGet_alSet_self bid _ uidx, ?_⟩
      intro bid2 hbid2
      exact alGet_alSet_ne _ uidx (fun hh => hbid2 hh.symm)
  · intro now uid uid2 results idx uidx bid e hu hb
    by_cases huu : uid2 = uid
    · subst huu
      unfold storeYelpResults
      rw [hu]
      simp only [Option.getD_some]
      obtain ⟨e2, h2, hp2⟩ := foldl_store_phone now results uidx bid e hb
      exact ⟨_, e2, alGet_alSet_self uid2 _ idx, h2, hp2⟩
    · unfold storeYelpResults
      refine ⟨uidx, e, ?_, hb, rfl⟩
      rw [alGet_alSet_ne _ idx huu, hu]

/-- C6 witness: the idempotent re-insert of the spec scenario, and phone
immutability against a later call that carries a different phone. -/
theorem c6_phoneDirectory_spec_witness :
    alGet "u" (storeYelpResults 9 "u" [⟨"Joes", "+15551234567", "a"⟩]
        [("u", [("a", ⟨"Joes", "+15551234567", "a", 1⟩)])]) =
      some [("a", ⟨"Joes", "+15551234567", "a", 9⟩)] ∧
    ([("a", (⟨"Joes", "+15551234567", "a", 9⟩ : DirEntry))]).length = 1 ∧
    (∃ uidx2 e2,
      alGet "u" (storeYelpResults 9 "u" [⟨"Joes", "+15559999999", "a"⟩]
          [("u", [("a", ⟨"Joes", "+15551234567", "a", 1⟩)])]) = some uidx2 ∧
      alGet "a" uidx2 = some e2 ∧ e2.phone = "+15551234567") := by
  have h1 := (c6_phoneDirectory_spec.1 9 "u"
    [("u", [("a", ⟨"Joes", "+15551234567", "a", 1⟩)])]
    [("a", ⟨"Joes", "+15551234567", "a", 1⟩)] "a"
    ⟨"Joes", "+15551234567", "a", 1⟩ ⟨"Joes", "+15551234567", "a"⟩
    (by decide) (by decide) rfl rfl (by decide))
  have h2 := c6_phoneDirectory_spec.2 9 "u" "u" [⟨"Joes", "+15559999999", "a"⟩]
    [("u", [("a", ⟨"Joes", "+15551234567", "a", 1⟩)])]
    [("a", ⟨"Joes", "+15551234567", "a", 1⟩)] "a"
    ⟨"Joes", "+15551234567", "a", 1⟩ (by decide) (by decide)
  refine ⟨?_, by decide, h2⟩
  have := h1.1
  simpa [alSet] using this

/-- C2: contrary to the claim, a failed detached background continuation
does NOT release the channel dispatch guard.  `createSpecializedVoiceAgent`
converts every failure (missing configuration, provisioning failure,
call-placement failure) into a resolved string, so the wrapper's rejection
handler — the only background path that deletes the guard — never runs:
the background completion never modifies `activeSpecializedAgents` at all.
Concretely, after a dispatch on channel `c1` whose continuation fails for
missing configuration, the error string is returned but the guard is still
held. -/
theorem c2_backgroundGuard :
    (∀ cfg env task st,
      ((runBackground cfg env task st).2).activeSpecializedAgents =
        st.activeSpecializedAgents) ∧
    (callAndAskQuestionAgent "app" "u" "c1" ⟨"5551234567", "R", "open?"⟩ SysState.empty).task =
      some ⟨"app", "u", "c1", "restaurant-inquiry", "5551234567"⟩ ∧
    (runBackground cfgMissing envFail ⟨"app", "u", "c1", "restaurant-inquiry", "5551234567"⟩
        (callAndAskQuestionAgent "app" "u" "c1" ⟨"5551234567", "R", "open?"⟩ SysState.empty).state).1 =
      missingConfigMsg ["AGORA_CONVO_AI_BASE_URL"] ∧
    guardHeld
      (runBackground cfgMissing envFail ⟨"app", "u", "c1", "restaurant-inquiry", "5551234567"⟩
        (callAndAskQuestionAgent "app" "u" "c1" ⟨"5551234567", "R", "open?"⟩ SysState.empty).state).2
      "c1" = true := by
  refine ⟨?_, by decide, by decide, by decide⟩
  intro cfg env task st
  unfold runBackground createSpecializedVoiceAgent
  dsimp only
  split_ifs <;> try rfl
  all_goals cases env.agent_id <;> simp [storeAgentInfo, startAgentPolling, getCallAction]
